import Mathlib

/-!
# Verification of the Tour Booking Calendar API (`main.py`)

A shallow embedding of the single-file FastAPI service that forwards tour
bookings to the Google Calendar API:

* module-level credential/startup logic (`main.py` lines 36-83) is embedded as
  the state function `startup` over an explicit environment of observable
  effects (file existence, environment variables, write success, credential
  properties);
* the two endpoint handlers `create_event` (legacy) and
  `create_booking_event` are embedded as pure functions that record the
  remote `events().insert(...).execute()` calls they issue and return the
  HTTP response;
* JSON dictionaries are association lists (`Dict`); Python string formatting
  (f-strings, `str.strip()`, truthiness, `or`) is embedded by the `py*`
  helpers below.

Numeric payload fields (`numberOfParticipants : int`, `tourPrice : float`)
are never used arithmetically by the program — they are only interpolated
into strings — so `numberOfParticipants` is carried as `Int` (whose decimal
rendering agrees with Python's `str(int)`) and `tourPrice` is carried by its
decimal rendering (a `String`).
-/

/-- JSON values, as passed between the service and the remote calendar API.
A number is carried by its decimal rendering (the program does no
arithmetic on JSON numbers). -/
inductive JsonVal where
  | null
  | bool (b : Bool)
  | num (lit : String)
  | str (s : String)
  | arr (elems : List JsonVal)
  | obj (fields : List (String × JsonVal))

/-- A JSON object: an association list of key/value pairs (Python `dict`
keys are unique, so first-match lookup agrees with Python lookup). -/
abbrev Dict := List (String × JsonVal)

/-- `d.get(k)` on a Python dict: `None` when the key is absent. -/
def dget (d : Dict) (k : String) : Option JsonVal :=
  match d with
  | [] => none
  | (k2, v) :: t => if k2 = k then some v else dget t k

/-- Python whitespace characters stripped by `str.strip()` (the ones that
can occur in this program's strings). -/
def pyIsSpace (c : Char) : Bool :=
  c == ' ' || c == '\t' || c == '\n' || c == '\r' || c == '\x0b' || c == '\x0c'

/-- Drop leading whitespace, as the left half of Python `str.strip()`. -/
def stripLeft (l : List Char) : List Char := l.dropWhile pyIsSpace

/-- Drop trailing whitespace, as the right half of Python `str.strip()`. -/
def stripRight (l : List Char) : List Char := (l.reverse.dropWhile pyIsSpace).reverse

/-- Python `str.strip()`: remove whitespace from both ends (the two
halves act on disjoint ends of the string, so the order of composition
does not matter). -/
def pyStrip (s : String) : String := String.mk (stripLeft (stripRight s.data))

/-- Python f-string rendering of an `Optional[str]`: `None` prints as
the four characters `None`. -/
def pyOptStr : Option String → String
  | some s => s
  | none => "None"

/-- Python `x or 'N/A'` for `x : Optional[str]`: `None` and the empty
string are falsy, every other string is returned unchanged. -/
def pyOrNA : Option String → String
  | some s => if s = "" then "N/A" else s
  | none => "N/A"

/-- Python conditional expression `"Yes" if b else "No"`. -/
def pyYesNo (b : Bool) : String := if b then "Yes" else "No"

/-- `CalendarEvent` pydantic model (`main.py` lines 88-92). -/
structure CalendarEvent where
  title : String
  description : Option String := none
  startDateTime : String
  endDateTime : String

/-- `BookingPayload` pydantic model (`main.py` lines 94-122), fields in
declaration order.  `tourPrice : float` is carried by its decimal
rendering, `numberOfParticipants : int` as `Int` (see module comment). -/
structure BookingPayload where
  customerEmail : String
  customerFirstName : String
  customerLastName : String
  customerPhone : Option String := none
  tourType : String
  numberOfParticipants : Int
  bookingDate : String
  bookingTime : String
  isParticipantAdult : Bool
  hasAcceptedTerms : Bool
  digitalSignature : Option String := none
  paymentMethod : String
  paymentStatus : String
  tourPrice : String
  calendarEvent : CalendarEvent
  fulfillmentStatus : String
  orderTimestamp : String

/-- One attendee entry `{"email": ...}` of the event body. -/
structure Attendee where
  email : String

/-- A `start`/`end` entry `{"dateTime": ..., "timeZone": ...}` of the
event body. -/
structure EventTime where
  dateTime : String
  timeZone : String

/-- The event body dict built by `create_booking_event`
(`main.py` lines 180-195). -/
structure EventBody where
  summary : String
  description : String
  start : EventTime
  «end» : EventTime
  attendees : List Attendee

/-- One remote call `service.events().insert(calendarId=..., body=...,
sendUpdates=...).execute()`, with the body of type `β` (a structured
`EventBody` for the booking endpoint, a raw `Dict` for the legacy one). -/
structure InsertCall (β : Type) where
  calendarId : String
  body : β
  sendUpdates : String

/-- An HTTP response of this service: a JSON 200 body, or an
`HTTPException(status_code, detail)` which FastAPI renders as
`{"detail": detail}` with the given status. -/
inductive Response where
  | ok (body : Dict)
  | httpError (statusCode : Nat) (detail : String)

/-- The HTTP status code of a response (a plain 200 body, or the
exception's code). -/
def Response.status : Response → Nat
  | .ok _ => 200
  | .httpError s _ => s

/-- The JSON body a client sees: the 200 body itself, or FastAPI's
`{"detail": ...}` rendering of an `HTTPException`. -/
def Response.json : Response → Dict
  | .ok b => b
  | .httpError _ d => [("detail", JsonVal.str d)]

/-- The multi-line description f-string of `create_booking_event`
(`main.py` lines 155-178), including its `.strip()`.  The literal
segments carry the source's exact text and 8-space indentation. -/
def bookingDescription (b : BookingPayload) : String :=
  pyStrip ("\n        Booking Confirmation:\n\n        👤 Customer: " ++ b.customerFirstName
    ++ " " ++ b.customerLastName
    ++ "\n        📧 Email: " ++ b.customerEmail
    ++ "\n        📞 Phone: " ++ pyOptStr b.customerPhone
    ++ "\n\n        🏝️ Tour Type: " ++ b.tourType
    ++ "\n        👥 Participants: " ++ toString b.numberOfParticipants
    ++ "\n        🧑‍🧑 Adults: " ++ pyYesNo b.isParticipantAdult
    ++ "\n\n        📅 Booking Date: " ++ b.bookingDate
    ++ "\n        🕒 Time: " ++ b.bookingTime
    ++ "\n\n        💳 Payment Method: " ++ b.paymentMethod
    ++ "\n        💰 Payment Status: " ++ b.paymentStatus
    ++ "\n        💵 Price: $" ++ b.tourPrice
    ++ "\n\n        🚚 Fulfillment Status: " ++ b.fulfillmentStatus
    ++ "\n        🕓 Order Timestamp: " ++ b.orderTimestamp
    ++ "\n\n        ✅ Terms Accepted: " ++ pyYesNo b.hasAcceptedTerms
    ++ "\n        ✍️ Signature: " ++ pyOrNA b.digitalSignature
    ++ "\n        ")

/-- `create_booking_event` (`main.py` lines 148-211) for an already
validated payload.  `outcome` is the result of the single remote
`insert(...).execute()` call: a created-event dict, or the message of the
raised exception (the `try` block's only fallible operation).  The first
component records the remote calls issued, in order. -/
def create_booking_event (booking : BookingPayload) (outcome : Except String Dict) :
    List (InsertCall EventBody) × Response :=
  let calendar_id := "primary"
  let summary := booking.calendarEvent.title ++ " - " ++ booking.tourType
  let event_body : EventBody :=
    { summary := summary
      description := bookingDescription booking
      start := { dateTime := booking.calendarEvent.startDateTime, timeZone := "Asia/Kolkata" }
      «end» := { dateTime := booking.calendarEvent.endDateTime, timeZone := "Asia/Kolkata" }
      attendees := [{ email := booking.customerEmail },
                    { email := "yourofficialteam@gmail.com" }] }
  match outcome with
  | .ok created_event =>
      ([{ calendarId := calendar_id, body := event_body, sendUpdates := "all" }],
       .ok [("status", JsonVal.str "success"),
            ("message", JsonVal.str "Booking event created successfully and invite sent!"),
            ("eventLink", (dget created_event "htmlLink").getD JsonVal.null),
            ("eventId", (dget created_event "id").getD JsonVal.null)])
  | .error e =>
      ([{ calendarId := calendar_id, body := event_body, sendUpdates := "all" }],
       .httpError 500 e)

/-- Modelled from the spec: FastAPI/pydantic request validation of a
required `str` field (the validation layer is an external dependency, not
source in this repository; the spec says a schema violation is rejected
with HTTP 422 before the handler runs).  A required field must be present
and be a string. -/
def getReqStr (d : Dict) (k : String) : Except String String :=
  match dget d k with
  | some (JsonVal.str s) => Except.ok s
  | _ => Except.error ("field required: " ++ k)

/-- Modelled from the spec: validation of an `Optional[str] = None` field:
absent or `null` parses to `none`; a string parses to itself. -/
def getOptStr (d : Dict) (k : String) : Except String (Option String)  :=
  match dget d k with
  | none => Except.ok none
  | some JsonVal.null => Except.ok none
  | some (JsonVal.str s) => Except.ok (some s)
  | some _ => Except.error ("not a string: " ++ k)

/-- Modelled from the spec: validation of a required `int` field: a JSON
number whose rendering is an integer literal. -/
def getReqInt (d : Dict) (k : String) : Except String Int :=
  match dget d k with
  | some (JsonVal.num lit) =>
      match lit.toInt? with
      | some n => Except.ok n
      | none => Except.error ("not an integer: " ++ k)
  | _ => Except.error ("field required: " ++ k)

/-- Modelled from the spec: validation of a required `bool` field. -/
def getReqBool (d : Dict) (k : String) : Except String Bool :=
  match dget d k with
  | some (JsonVal.bool b) => Except.ok b
  | _ => Except.error ("field required: " ++ k)

/-- Modelled from the spec: validation of a required `float` field, carried
by its decimal rendering. -/
def getReqNum (d : Dict) (k : String) : Except String String :=
  match dget d k with
  | some (JsonVal.num lit) => Except.ok lit
  | _ => Except.error ("field required: " ++ k)

/-- Modelled from the spec: pydantic validation of the nested
`CalendarEvent` model (`main.py` lines 88-92), fields in declaration
order. -/
def parseCalendarEvent (d : Dict) : Except String CalendarEvent :=
  match getReqStr d "title" with
  | .error e => .error e
  | .ok title =>
  match getOptStr d "description" with
  | .error e => .error e
  | .ok description =>
  match getReqStr d "startDateTime" with
  | .error e => .error e
  | .ok startDateTime =>
  match getReqStr d "endDateTime" with
  | .error e => .error e
  | .ok endDateTime =>
  .ok { title := title, description := description,
        startDateTime := startDateTime, endDateTime := endDateTime }

/-- Modelled from the spec: pydantic validation of `BookingPayload`
(`main.py` lines 94-122), fields checked in declaration order
(`customerEmail` first). -/
def parseBookingPayload (d : Dict) : Except String BookingPayload :=
  match getReqStr d "customerEmail" with
  | .error e => .error e
  | .ok customerEmail =>
  match getReqStr d "customerFirstName" with
  | .error e => .error e
  | .ok customerFirstName =>
  match getReqStr d "customerLastName" with
  | .error e => .error e
  | .ok customerLastName =>
  match getOptStr d "customerPhone" with
  | .error e => .error e
  | .ok customerPhone =>
  match getReqStr d "tourType" with
  | .error e => .error e
  | .ok tourType =>
  match getReqInt d "numberOfParticipants" with
  | .error e => .error e
  | .ok numberOfParticipants =>
  match getReqStr d "bookingDate" with
  | .error e => .error e
  | .ok bookingDate =>
  match getReqStr d "bookingTime" with
  | .error e => .error e
  | .ok bookingTime =>
  match getReqBool d "isParticipantAdult" with
  | .error e => .error e
  | .ok isParticipantAdult =>
  match getReqBool d "hasAcceptedTerms" with
  | .error e => .error e
  | .ok hasAcceptedTerms =>
  match getOptStr d "digitalSignature" with
  | .error e => .error e
  | .ok digitalSignature =>
  match getReqStr d "paymentMethod" with
  | .error e => .error e
  | .ok paymentMethod =>
  match getReqStr d "paymentStatus" with
  | .error e => .error e
  | .ok paymentStatus =>
  match getReqNum d "tourPrice" with
  | .error e => .error e
  | .ok tourPrice =>
  match dget d "calendarEvent" with
  | some (JsonVal.obj fields) =>
    (match parseCalendarEvent fields with
     | .error e => .error e
     | .ok calendarEvent =>
       match getReqStr d "fulfillmentStatus" with
       | .error e => .error e
       | .ok fulfillmentStatus =>
       match getReqStr d "orderTimestamp" with
       | .error e => .error e
       | .ok orderTimestamp =>
       .ok { customerEmail := customerEmail, customerFirstName := customerFirstName,
             customerLastName := customerLastName, customerPhone := customerPhone,
             tourType := tourType, numberOfParticipants := numberOfParticipants,
             bookingDate := bookingDate, bookingTime := bookingTime,
             isParticipantAdult := isParticipantAdult, hasAcceptedTerms := hasAcceptedTerms,
             digitalSignature := digitalSignature, paymentMethod := paymentMethod,
             paymentStatus := paymentStatus, tourPrice := tourPrice,
             calendarEvent := calendarEvent, fulfillmentStatus := fulfillmentStatus,
             orderTimestamp := orderTimestamp })
  | _ => .error "field required: calendarEvent"

/-- The `POST /create-booking-event` endpoint as a client sees it:
FastAPI validates the JSON body against `BookingPayload` (modelled from
the spec: a schema violation is rejected with HTTP 422 and the handler —
hence the remote call — never runs), then the handler executes. -/
def create_booking_event_endpoint (body : Dict) (outcome : Except String Dict) :
    List (InsertCall EventBody) × Response :=
  match parseBookingPayload body with
  | .error msg => ([], .httpError 422 msg)
  | .ok booking => create_booking_event booking outcome

/-- The required top-level fields of the `BookingPayload` pydantic model
(`main.py` lines 94-122): every declared field except the two
`Optional[...] = None` ones (`customerPhone`, `digitalSignature`), in
declaration order. -/
def requiredBookingFields : List String :=
  ["customerEmail", "customerFirstName", "customerLastName", "tourType",
   "numberOfParticipants", "bookingDate", "bookingTime", "isParticipantAdult",
   "hasAcceptedTerms", "paymentMethod", "paymentStatus", "tourPrice",
   "calendarEvent", "fulfillmentStatus", "orderTimestamp"]

/-- Legacy `create_event` (`main.py` lines 133-145): the request body dict
is forwarded verbatim as the remote event body; on success the full
created-event dict is returned under the key `event`. -/
def create_event (event : Dict) (outcome : Except String Dict) :
    List (InsertCall Dict) × Response :=
  let calendar_id := "primary"
  match outcome with
  | .ok created_event =>
      ([{ calendarId := calendar_id, body := event, sendUpdates := "all" }],
       .ok [("status", JsonVal.str "success"), ("event", JsonVal.obj created_event)])
  | .error e =>
      ([{ calendarId := calendar_id, body := event, sendUpdates := "all" }],
       .httpError 500 e)

/-- A `google.oauth2.credentials.Credentials` object as observed by this
module: whether it carries an access token, whether it is expired, and
whether it carries a refresh token.  `valid` below is google-auth's
documented property `token is truthy and not expired`. -/
structure Credential where
  hasToken : Bool
  expired : Bool
  refreshToken : Bool

/-- google-auth `Credentials.valid`. -/
def Credential.valid (c : Credential) : Bool := c.hasToken && !c.expired

/-- Python truthiness of an optional string (`os.environ.get` result):
`None` and the empty string are falsy. -/
def pyTruthy : Option String → Bool
  | some s => !(s == "")
  | none => false

/-- Python `a or b` on two optional strings (line 54's
`os.environ.get(...) or os.environ.get(...)`). -/
def pyOrOpt (a b : Option String) : Option String :=
  if pyTruthy a then a else b

/-- The observable environment of the module-level startup code
(`main.py` lines 36-83): file existence, environment variables, the fate
of writes to the two config files, and the credentials produced by
loading, refreshing, and the interactive flow. -/
structure StartupEnv where
  tokenFileExists : Bool
  tokenFileContentEnv : Option String
  tokenWriteOk : Bool
  clientSecretExists : Bool
  googleClientSecretsContentEnv : Option String
  googleClientSecretsEnv : Option String
  clientSecretWriteOk : Bool
  loadedCred : Credential
  refreshedCred : Credential
  flowCred : Credential

/-- What a completed startup did: how many times `creds.refresh(...)` ran,
how many times the interactive `flow.run_local_server(...)` ran, which
credential (if any) was written back to `token.json` after
refresh/re-authorization, and the credential `build('calendar', 'v3', ...)`
received. -/
structure StartupResult where
  refreshCalls : Nat
  flowRuns : Nat
  persistedCred : Option Credential
  serviceCred : Credential

/-- The module-level startup code of `main.py` (lines 36-83), run once
when the module loads.  `Except.error` is an uncaught exception: the
process fails to start.  Mirrors the source: the `token.json` bootstrap
(lines 40-50), the `client_secrets.json` bootstrap (lines 53-63), loading
the credential (lines 71-72), the refresh-or-interactive-flow branch and
the unguarded write-back (lines 74-81), and building the service client
(line 83). -/
def startup (env : StartupEnv) : Except String StartupResult :=
  let tokenStage : Except String Bool :=
    if env.tokenFileExists then .ok true
    else if pyTruthy env.tokenFileContentEnv then
      if env.tokenWriteOk then .ok true
      else .error "Failed to write token.json"
    else .error "TOKEN_FILE_CONTENT environment variable not set."
  match tokenStage with
  | .error e => .error e
  | .ok tokenExists =>
    let secretStage : Except String Unit :=
      if env.clientSecretExists then .ok ()
      else if pyTruthy (pyOrOpt env.googleClientSecretsContentEnv env.googleClientSecretsEnv) then
        if env.clientSecretWriteOk then .ok ()
        else .error "Failed to write client_secrets.json"
      else .error "GOOGLE_CLIENT_SECRETS_CONTENT environment variable not set."
    match secretStage with
    | .error e => .error e
    | .ok _ =>
      let creds : Option Credential := if tokenExists then some env.loadedCred else none
      match creds with
      | some c =>
        if c.valid then
          .ok { refreshCalls := 0, flowRuns := 0, persistedCred := none, serviceCred := c }
        else if c.expired && c.refreshToken then
          if env.tokenWriteOk then
            .ok { refreshCalls := 1, flowRuns := 0,
                  persistedCred := some env.refreshedCred, serviceCred := env.refreshedCred }
          else .error "failed to persist token.json"
        else
          if env.tokenWriteOk then
            .ok { refreshCalls := 0, flowRuns := 1,
                  persistedCred := some env.flowCred, serviceCred := env.flowCred }
          else .error "failed to persist token.json"
      | none =>
        if env.tokenWriteOk then
          .ok { refreshCalls := 0, flowRuns := 1,
                persistedCred := some env.flowCred, serviceCred := env.flowCred }
        else .error "failed to persist token.json"

/-- A startup environment: both config files present, the loaded
credential expired but carrying a refresh token, writes succeeding. -/
def refreshEnv : StartupEnv :=
  { tokenFileExists := true
    tokenFileContentEnv := none
    tokenWriteOk := true
    clientSecretExists := true
    googleClientSecretsContentEnv := none
    googleClientSecretsEnv := none
    clientSecretWriteOk := true
    loadedCred := { hasToken := true, expired := true, refreshToken := true }
    refreshedCred := { hasToken := true, expired := false, refreshToken := true }
    flowCred := { hasToken := true, expired := false, refreshToken := false } }

/-- A startup environment whose token file loads a valid, non-expired
credential. -/
def validCredEnv : StartupEnv :=
  { refreshEnv with loadedCred := { hasToken := true, expired := false, refreshToken := true } }

/-- A startup environment where the loaded credential is expired (with a
refresh token) and every write to `token.json` fails. -/
def persistFailEnv : StartupEnv :=
  { refreshEnv with tokenWriteOk := false }

/-- A startup environment where the loaded credential is absent (no
token) and every write to `token.json` fails. -/
def persistFailFlowEnv : StartupEnv :=
  { refreshEnv with
    tokenWriteOk := false
    loadedCred := { hasToken := false, expired := false, refreshToken := false } }

/-! ## Helper lemmas -/

theorem getReqStr_ok_isSome {d : Dict} {k s : String}
    (h : getReqStr d k = Except.ok s) : (dget d k).isSome = true := by
  cases hd : dget d k with
  | none =>
    unfold getReqStr at h
    rw [hd] at h
    exact Except.noConfusion h
  | some v => rfl

theorem getReqInt_ok_isSome {d : Dict} {k : String} {n : Int}
    (h : getReqInt d k = Except.ok n) : (dget d k).isSome = true := by
  cases hd : dget d k with
  | none =>
    unfold getReqInt at h
    rw [hd] at h
    exact Except.noConfusion h
  | some v => rfl

theorem getReqBool_ok_isSome {d : Dict} {k : String} {b : Bool}
    (h : getReqBool d k = Except.ok b) : (dget d k).isSome = true := by
  cases hd : dget d k with
  | none =>
    unfold getReqBool at h
    rw [hd] at h
    exact Except.noConfusion h
  | some v => rfl

theorem getReqNum_ok_isSome {d : Dict} {k s : String}
    (h : getReqNum d k = Except.ok s) : (dget d k).isSome = true := by
  cases hd : dget d k with
  | none =>
    unfold getReqNum at h
    rw [hd] at h
    exact Except.noConfusion h
  | some v => rfl

theorem dget_isSome_of_eq_some {d : Dict} {k : String} {v : JsonVal}
    (h : dget d k = some v) : (dget d k).isSome = true := by rw [h]; rfl

/-- If pydantic validation accepts a body, then every required top-level
field of `BookingPayload` is present in it. -/
theorem parse_ok_required_present (d : Dict) (p : BookingPayload)
    (hp : parseBookingPayload d = Except.ok p) :
    ∀ k ∈ requiredBookingFields, (dget d k).isSome = true := by
  unfold parseBookingPayload at hp
  repeat' split at hp
  all_goals try exact Except.noConfusion hp
  intro k hk
  simp only [requiredBookingFields, List.mem_cons, List.not_mem_nil, or_false] at hk
  rcases hk with rfl | rfl | rfl | rfl | rfl | rfl | rfl | rfl | rfl | rfl | rfl | rfl | rfl
    | rfl | rfl
  · exact getReqStr_ok_isSome (by assumption)
  · exact getReqStr_ok_isSome (by assumption)
  · exact getReqStr_ok_isSome (by assumption)
  · exact getReqStr_ok_isSome (by assumption)
  · exact getReqInt_ok_isSome (by assumption)
  · exact getReqStr_ok_isSome (by assumption)
  · exact getReqStr_ok_isSome (by assumption)
  · exact getReqBool_ok_isSome (by assumption)
  · exact getReqBool_ok_isSome (by assumption)
  · exact getReqStr_ok_isSome (by assumption)
  · exact getReqStr_ok_isSome (by assumption)
  · exact getReqNum_ok_isSome (by assumption)
  · exact dget_isSome_of_eq_some (by assumption)
  · exact getReqStr_ok_isSome (by assumption)
  · exact getReqStr_ok_isSome (by assumption)

/-! ## Claims -/

/-- C1: for every well-formed `BookingPayload`, the event body sent to the
remote create-event call has summary `"{calendarEvent.title} - {tourType}"`
(title, space-hyphen-space, tourType), and its attendee list is exactly
the customer's email followed by the fixed operator email
`yourofficialteam@gmail.com`, nothing else. -/
theorem booking_event_summary_and_attendees (b : BookingPayload)
    (outcome : Except String Dict) :
    (create_booking_event b outcome).1.map (fun c => c.body.summary)
      = [b.calendarEvent.title ++ " - " ++ b.tourType] ∧
    (create_booking_event b outcome).1.map (fun c => c.body.attendees)
      = [[{ email := b.customerEmail }, { email := "yourofficialteam@gmail.com" }]] := by
  cases outcome <;> exact ⟨rfl, rfl⟩

/-- C2: a JSON body missing any required field of `BookingPayload`
(for example `customerEmail`, or `tourType`, ...) is rejected with
HTTP 422 by schema validation and no remote create-event call is
attempted. -/
theorem missing_required_field_rejected (body : Dict) (outcome : Except String Dict)
    (k : String) (hk : k ∈ requiredBookingFields) (h : dget body k = none) :
    (create_booking_event_endpoint body outcome).1 = [] ∧
    Response.status (create_booking_event_endpoint body outcome).2 = 422 := by
  have hfail : ∀ p, parseBookingPayload body ≠ Except.ok p := by
    intro p hp
    have hs := parse_ok_required_present body p hp k hk
    rw [h] at hs
    exact Bool.noConfusion hs
  unfold create_booking_event_endpoint
  cases hparse : parseBookingPayload body with
  | error e => exact ⟨rfl, rfl⟩
  | ok p => exact absurd hparse (hfail p)

/-- C2 witness: a body that does carry `customerEmail` but is missing the
required field `tourType` is rejected with HTTP 422 and no remote call is
made. -/
theorem missing_required_field_rejected_witness :
    (create_booking_event_endpoint [("customerEmail", JsonVal.str "a@b.com")]
      (Except.ok [])).1 = [] ∧
    Response.status (create_booking_event_endpoint
      [("customerEmail", JsonVal.str "a@b.com")] (Except.ok [])).2 = 422 :=
  missing_required_field_rejected [("customerEmail", JsonVal.str "a@b.com")]
    (Except.ok []) "tourType" (by decide) rfl

/-- C3: if the remote create-event call raises any exception,
`create_booking_event` responds with HTTP 500 whose `detail` is exactly
the exception's message, the response carries no `eventId` and no
`eventLink` field, and exactly one remote call was made (no retry). -/
theorem booking_event_remote_failure (b : BookingPayload) (msg : String) :
    (create_booking_event b (Except.error msg)).2 = Response.httpError 500 msg ∧
    Response.json (create_booking_event b (Except.error msg)).2
      = [("detail", JsonVal.str msg)] ∧
    dget (Response.json (create_booking_event b (Except.error msg)).2) "eventId" = none ∧
    dget (Response.json (create_booking_event b (Except.error msg)).2) "eventLink" = none ∧
    (create_booking_event b (Except.error msg)).1.length = 1 :=
  ⟨rfl, rfl, rfl, rfl, rfl⟩

/-- C4: for every well-formed `BookingPayload`, the event body's start
carries `calendarEvent.startDateTime` verbatim and its end carries
`calendarEvent.endDateTime` verbatim, both with timezone `Asia/Kolkata`,
and the remote call is issued with `sendUpdates = "all"`. -/
theorem booking_event_times_and_sendUpdates (b : BookingPayload)
    (outcome : Except String Dict) :
    (create_booking_event b outcome).1.map
        (fun c => (c.body.start, c.body.«end», c.sendUpdates))
      = [({ dateTime := b.calendarEvent.startDateTime, timeZone := "Asia/Kolkata" },
          { dateTime := b.calendarEvent.endDateTime, timeZone := "Asia/Kolkata" }, "all")] := by
  cases outcome <;> rfl

/-- C5 counterexample: the legacy `/create-event` endpoint's success
response is NOT of the shape `{status, message, eventLink, eventId}`: at a
concrete request and remote result its 200 body has no `eventId`, no
`eventLink` and no `message` key. -/
theorem legacy_response_shape_cex :
    Response.status (create_event [("summary", JsonVal.str "x")]
        (Except.ok [("id", JsonVal.str "evt1"), ("htmlLink", JsonVal.str "L")])).2 = 200 ∧
    dget (Response.json (create_event [("summary", JsonVal.str "x")]
        (Except.ok [("id", JsonVal.str "evt1"), ("htmlLink", JsonVal.str "L")])).2)
      "eventId" = none ∧
    dget (Response.json (create_event [("summary", JsonVal.str "x")]
        (Except.ok [("id", JsonVal.str "evt1"), ("htmlLink", JsonVal.str "L")])).2)
      "eventLink" = none ∧
    dget (Response.json (create_event [("summary", JsonVal.str "x")]
        (Except.ok [("id", JsonVal.str "evt1"), ("htmlLink", JsonVal.str "L")])).2)
      "message" = none :=
  ⟨rfl, rfl, rfl, rfl⟩

/-- C5 (amended): on a successful remote call, `POST /create-booking-event`
returns HTTP 200 with body `{status, message, eventLink, eventId}`, where
`eventId` and `eventLink` are the remote response's `id` and `htmlLink`;
the legacy `POST /create-event` returns HTTP 200 with body
`{status, event}` where `event` is the full remote response. -/
theorem success_response_shapes (b : BookingPayload) (created : Dict) (event : Dict) :
    Response.status (create_booking_event b (Except.ok created)).2 = 200 ∧
    (create_booking_event b (Except.ok created)).2 =
      Response.ok [("status", JsonVal.str "success"),
                   ("message", JsonVal.str "Booking event created successfully and invite sent!"),
                   ("eventLink", (dget created "htmlLink").getD JsonVal.null),
                   ("eventId", (dget created "id").getD JsonVal.null)] ∧
    Response.status (create_event event (Except.ok created)).2 = 200 ∧
    (create_event event (Except.ok created)).2 =
      Response.ok [("status", JsonVal.str "success"), ("event", JsonVal.obj created)] :=
  ⟨rfl, rfl, rfl, rfl⟩

/-- C6 counterexample: with the token file present, the loaded credential
invalid, and every write to `token.json` failing, startup does NOT
continue — it aborts with the write error. -/
theorem persist_failure_abort_cex :
    persistFailEnv.tokenWriteOk = false ∧
    startup persistFailEnv = Except.error "failed to persist token.json" :=
  ⟨rfl, rfl⟩

/-- C6 (amended): a failure to write the credential back to `token.json`
aborts startup — the write at `main.py` lines 80-81 is not guarded, so the
exception propagates out of the module-level code (and the bootstrap write
at lines 44-48 raises explicitly).  The process does not continue serving
with the in-memory credential. -/
theorem token_persist_failure_aborts (env : StartupEnv)
    (h1 : env.tokenFileExists = true) (h2 : env.clientSecretExists = true)
    (h3 : env.loadedCred.valid = false) (h4 : env.tokenWriteOk = false) :
    startup env = Except.error "failed to persist token.json" := by
  simp [startup, h1, h2, h3, h4]

/-- C6 witness: a concrete environment (no cached token, interactive-flow
path, read-only token path) on which startup aborts. -/
theorem token_persist_failure_aborts_witness :
    startup persistFailFlowEnv = Except.error "failed to persist token.json" :=
  token_persist_failure_aborts persistFailFlowEnv rfl rfl rfl rfl

/-- C7: at startup, a loaded credential that is expired and carries a
refresh token leads to exactly one refresh call, no interactive flow, the
refreshed credential written back to the token file, and the service built
with the refreshed credential. -/
theorem startup_refresh_once (env : StartupEnv)
    (h1 : env.tokenFileExists = true) (h2 : env.clientSecretExists = true)
    (h3 : env.loadedCred.expired = true) (h4 : env.loadedCred.refreshToken = true)
    (h5 : env.tokenWriteOk = true) :
    startup env = Except.ok
      { refreshCalls := 1, flowRuns := 0,
        persistedCred := some env.refreshedCred, serviceCred := env.refreshedCred } := by
  simp [startup, Credential.valid, h1, h2, h3, h4, h5]

/-- C7 witness: the concrete expired-with-refresh-token environment. -/
theorem startup_refresh_once_witness :
    startup refreshEnv = Except.ok
      { refreshCalls := 1, flowRuns := 0,
        persistedCred := some { hasToken := true, expired := false, refreshToken := true },
        serviceCred := { hasToken := true, expired := false, refreshToken := true } } :=
  startup_refresh_once refreshEnv rfl rfl rfl rfl rfl

/-- C8: at startup, a token file that loads into a valid (non-expired)
credential triggers neither the interactive flow nor a refresh call, and
the service client is built with that cached credential. -/
theorem startup_valid_cred_no_flow (env : StartupEnv)
    (h1 : env.tokenFileExists = true) (h2 : env.clientSecretExists = true)
    (h3 : env.loadedCred.valid = true) :
    startup env = Except.ok
      { refreshCalls := 0, flowRuns := 0,
        persistedCred := none, serviceCred := env.loadedCred } := by
  simp [startup, h1, h2, h3]

/-- C8 witness: the concrete valid-credential environment. -/
theorem startup_valid_cred_no_flow_witness :
    startup validCredEnv = Except.ok
      { refreshCalls := 0, flowRuns := 0,
        persistedCred := none,
        serviceCred := { hasToken := true, expired := false, refreshToken := true } } :=
  startup_valid_cred_no_flow validCredEnv rfl rfl rfl

/-- C10: the legacy `POST /create-event` endpoint performs no schema
validation: every JSON object body (empty or with arbitrary keys) is
forwarded verbatim as the remote event body, the only statuses are 200
and 500, and in particular no request is rejected with a 422 client
error. -/
theorem legacy_no_validation (event : Dict) (outcome : Except String Dict) :
    (create_event event outcome).1.map (fun c => c.body) = [event] ∧
    (Response.status (create_event event outcome).2 = 200 ∨
     Response.status (create_event event outcome).2 = 500) ∧
    Response.status (create_event event outcome).2 ≠ 422 := by
  cases outcome with
  | ok c => exact ⟨rfl, Or.inl rfl, by simp [create_event, Response.status]⟩
  | error e => exact ⟨rfl, Or.inr rfl, by simp [create_event, Response.status]⟩
